import Mathlib

/-
Verification of the WeddingSite upload backend.

The repository contains two near-duplicate Go upload handlers:
  * `Backend/main.go`  — no CORS, field "file", port 8080;
  * a second copy      — CORS headers, OPTIONS short-circuit, explicit
    `ParseMultipartForm(32 << 20)`, field "image", port 8085.

We embed both handlers shallowly.  A request carries its HTTP method and
the outcome of multipart parsing (`none` models a body that fails to
parse as multipart; `some parts` the parsed field/part list).  The
filesystem is a flag for the upload directory plus a list of
(directory, name, bytes) entries.  Failures of `os.Mkdir`, `os.Create`
and `io.Copy` are injected through an environment record, which also
carries the `time.Now().String()` value used as the destination name.
-/

/-- One file part of a multipart form: the client-supplied filename from
the part header and the payload bytes. -/
structure FilePart where
  filename : String
  content : List Nat
deriving DecidableEq

/-- An inbound HTTP request, as far as the handlers inspect it: the
method, and the multipart parse outcome of the body (`none` = the body
does not parse as multipart form data). -/
structure Request where
  method : String
  form : Option (List (String × FilePart))
deriving DecidableEq

/-- The filesystem state the handlers touch: whether `./uploads` exists,
and the files on disk as (directory, name, byte content) entries. -/
structure FS where
  dirExists : Bool
  files : List (String × String × List Nat)
deriving DecidableEq

/-- The per-request environment: injected failures of `os.Mkdir`,
`os.Create` and `io.Copy` (`copyFail = some k` means the copy fails
after `k` bytes were written), and the `time.Now().String()` value at
file creation. -/
structure Env where
  mkdirFails : Bool
  createFails : Bool
  copyFail : Option Nat
  now : String
deriving DecidableEq

/-- An HTTP response: status code, body text, and response headers. -/
structure Response where
  status : Nat
  body : String
  headers : List (String × String)
deriving DecidableEq

/-- The fixed upload directory, `const uploadPath = "./uploads"`. -/
def uploadPath : String := "./uploads"

/-- Headers Go's `http.Error` adds on top of those already set. -/
def httpErrorHeaders : List (String × String) :=
  [("Content-Type", "text/plain; charset=utf-8"),
   ("X-Content-Type-Options", "nosniff")]

/-- Go's `http.Error(w, msg, code)`: replies with `code`, writes `msg`
followed by a newline, and keeps the headers already set on `w`. -/
def httpError (hdrs : List (String × String)) (msg : String) (code : Nat) :
    Response :=
  { status := code, body := msg ++ "\n", headers := hdrs ++ httpErrorHeaders }

/-- First file part registered under `key` in a parsed multipart form. -/
def findFilePart (parts : List (String × FilePart)) (key : String) :
    Option FilePart :=
  match parts.find? (fun p => p.fst == key) with
  | none => none
  | some p => some p.snd

/-- Go's `request.FormFile(key)`: fails when the body did not parse as
multipart or when no part is registered under `key`. -/
def formFile (form : Option (List (String × FilePart))) (key : String) :
    Option FilePart :=
  match form with
  | none => none
  | some parts => findFilePart parts key

/-- Writing a file: `os.Create` truncates any existing file at the same
(directory, name) pair, and the copy leaves `content` as its bytes. -/
def FS.write (fs : FS) (dir name : String) (content : List Nat) : FS :=
  { fs with
    files := (dir, name, content) ::
      fs.files.filter (fun e => !(e.fst == dir && e.snd.fst == name)) }

/-- Byte content of the file stored at (dir, name), if any. -/
def FS.lookup (fs : FS) (dir name : String) : Option (List Nat) :=
  match fs.files.find? (fun e => e.fst == dir && e.snd.fst == name) with
  | none => none
  | some e => some e.snd.snd

/-- The (directory, name) key of a stored file entry. -/
def pathOf (e : String × String × List Nat) : String × String :=
  (e.fst, e.snd.fst)

namespace Backend

/-- The upload handler of `Backend/main.go` (no CORS variant): on POST it
retrieves the "file" form field (400 on failure), bootstraps `./uploads`
(500 on mkdir failure), creates a destination file named
`time.Now().String()` (500 on failure), copies the payload into it
(500 on failure, leaving the partial file), and replies 200
"File successfully uploaded\n"; any other method gets 405. -/
def uploadHandler (req : Request) (env : Env) (fs : FS) : Response × FS :=
  if req.method = "POST" then
    match formFile req.form "file" with
    | none => (httpError [] "Unable to get file from form\n" 400, fs)
    | some file =>
      if !fs.dirExists && env.mkdirFails then
        (httpError [] "Unable to create upload directory\n" 500, fs)
      else
        let fs1 : FS := { fs with dirExists := true }
        if env.createFails then
          (httpError [] "Unable to create file\n" 500, fs1)
        else
          match env.copyFail with
          | some k =>
            (httpError [] "Unable to save file\n" 500,
             fs1.write uploadPath env.now (file.content.take k))
          | none =>
            ({ status := 200, body := "File successfully uploaded\n",
               headers := [] },
             fs1.write uploadPath env.now file.content)
  else
    (httpError [] "Invalid request method\n" 405, fs)

/-- Outcome of the process entry point: either the listener bound and the
process keeps running serving requests, or `main` returned and the
process exited normally.  The `List String` is what was printed to
standard output. -/
inductive MainOutcome
  | serves (stdout : List String)
  | exitsNormally (stdout : List String)
deriving DecidableEq

/-- Lines printed to standard output. -/
def MainOutcome.stdout : MainOutcome → List String
  | .serves out => out
  | .exitsNormally out => out

/-- Whether the process is still running after startup. -/
def MainOutcome.keepsRunning : MainOutcome → Bool
  | .serves _ => true
  | .exitsNormally _ => false

/-- `main` of `Backend/main.go`: prints the startup line, then calls
`http.ListenAndServe(":8080", nil)`.  When the bind succeeds the call
blocks and the process keeps serving; when it fails the error is
printed with `fmt.Println("Server failed:", err)` and `main` returns,
which ends the process. -/
def main (bindErr : Option String) : MainOutcome :=
  match bindErr with
  | none => .serves ["Server started at http://localhost:8080"]
  | some e =>
    .exitsNormally
      ["Server started at http://localhost:8080", "Server failed: " ++ e]

end Backend

namespace Cors

/-- The three CORS headers the second handler sets before any branching. -/
def corsHeaders : List (String × String) :=
  [("Access-Control-Allow-Origin", "*"),
   ("Access-Control-Allow-Methods", "POST"),
   ("Access-Control-Allow-Headers", "Content-Type")]

/-- The in-memory buffer cap passed to `ParseMultipartForm`: `32 << 20`. -/
def multipartMaxMemory : Nat := 32 <<< 20

/-- Go's `request.ParseMultipartForm(maxMemory)`: parses the body as
multipart keeping at most `maxMemory` bytes in memory.  In this
embedding the parse outcome is carried on the request itself and the
memory cap does not change the observable result. -/
def parseMultipartForm (maxMemory : Nat) (req : Request) :
    Option (List (String × FilePart)) :=
  req.form

/-- The CORS-variant upload handler: sets the three CORS headers, answers
OPTIONS with a bare 200, then parses the body as multipart with a
32 MiB cap (400 "Could not parse form" on failure), and on POST
retrieves the "image" field (400 on failure), bootstraps `./uploads`
(500 on mkdir failure), creates a file named `time.Now().String()`
(500 on failure), copies the payload (500 on failure, partial file
kept), replying 200 "File successfully uploaded\n"; any other method
gets 405. -/
def uploadHandler (req : Request) (env : Env) (fs : FS) : Response × FS :=
  let hdrs := corsHeaders
  if req.method = "OPTIONS" then
    ({ status := 200, body := "", headers := hdrs }, fs)
  else
    match parseMultipartForm multipartMaxMemory req with
    | none => (httpError hdrs "Could not parse form" 400, fs)
    | some parts =>
      if req.method = "POST" then
        match findFilePart parts "image" with
        | none => (httpError hdrs "Error retrieving the file" 400, fs)
        | some file =>
          if !fs.dirExists && env.mkdirFails then
            (httpError hdrs "Unable to create upload directory\n" 500, fs)
          else
            let fs1 : FS := { fs with dirExists := true }
            if env.createFails then
              (httpError hdrs "Unable to create file\n" 500, fs1)
            else
              match env.copyFail with
              | some k =>
                (httpError hdrs "Unable to save file\n" 500,
                 fs1.write uploadPath env.now (file.content.take k))
              | none =>
                ({ status := 200, body := "File successfully uploaded\n",
                   headers := hdrs },
                 fs1.write uploadPath env.now file.content)
      else
        (httpError hdrs "Invalid request method\n" 405, fs)

/-- `main` of the CORS variant: identical to the plain one but on port
8085. -/
def main (bindErr : Option String) : Backend.MainOutcome :=
  match bindErr with
  | none => .serves ["Server started at http://localhost:8085"]
  | some e =>
    .exitsNormally
      ["Server started at http://localhost:8085", "Server failed: " ++ e]

end Cors

/-! Helper lemmas about the filesystem model. -/

/-- Writing to a fresh (dir, name) pair adds exactly one entry. -/
theorem FS.write_of_lookup_none (fs : FS) (d n : String) (c : List Nat)
    (h : fs.lookup d n = none) :
    (FS.write fs d n c).files = (d, n, c) :: fs.files := by
  unfold FS.lookup at h
  cases hf : fs.files.find? (fun e => e.fst == d && e.snd.fst == n) with
  | some e => rw [hf] at h; cases h
  | none =>
    rw [List.find?_eq_none] at hf
    unfold FS.write
    simp only [FS.mk.injEq]
    rw [List.filter_eq_self.mpr]
    intro e he
    simp only [Bool.not_eq_true']
    exact Bool.not_eq_true _ ▸ (by simpa using hf e he)

/-- The write leaves the written content readable at its key. -/
theorem FS.lookup_write (fs : FS) (d n : String) (c : List Nat) :
    (FS.write fs d n c).lookup d n = some c := by
  unfold FS.write FS.lookup
  simp [List.find?]

/-- Every entry after a write is an old entry or sits at the written
(dir, name) key. -/
theorem FS.mem_write (fs : FS) (d n : String) (c : List Nat)
    (e : String × String × List Nat) (he : e ∈ (FS.write fs d n c).files) :
    e ∈ fs.files ∨ (e.fst = d ∧ e.snd.fst = n) := by
  unfold FS.write at he
  simp only [List.mem_cons] at he
  rcases he with he | he
  · subst he
    exact Or.inr ⟨rfl, rfl⟩
  · exact Or.inl (List.mem_of_mem_filter he)

/-- The keys present after a write do not depend on the written bytes. -/
theorem FS.map_pathOf_write (fs : FS) (d n : String) (c c' : List Nat) :
    ((FS.write fs d n c).files.map pathOf) =
      ((FS.write fs d n c').files.map pathOf) := by
  unfold FS.write
  simp [pathOf]

/-! Claim theorems. -/

/-- C1: for every valid single-part multipart POST to /upload carrying
the "file" field, when mkdir, create and copy all succeed and the
timestamp name is not already taken, the plain handler responds 200 with
body exactly "File successfully uploaded\n" and exactly one new file
appears in ./uploads whose byte content equals the uploaded payload. -/
theorem c1_valid_upload_success (part : FilePart) (env : Env) (fs : FS)
    (hmk : env.mkdirFails = false) (hcr : env.createFails = false)
    (hcp : env.copyFail = none)
    (hfresh : fs.lookup uploadPath env.now = none) :
    uploadPath = "./uploads"
    ∧ (Backend.uploadHandler ⟨"POST", some [("file", part)]⟩ env fs).fst =
        { status := 200, body := "File successfully uploaded\n",
          headers := [] }
    ∧ (Backend.uploadHandler ⟨"POST", some [("file", part)]⟩ env fs).snd.files
        = (uploadPath, env.now, part.content) :: fs.files := by
  have hw := FS.write_of_lookup_none { fs with dirExists := true }
    uploadPath env.now part.content hfresh
  refine ⟨rfl, ?_, ?_⟩ <;>
    simp [Backend.uploadHandler, formFile, findFilePart, hmk, hcr, hcp, hw]

/-- Witness for C1 at the spec's end-to-end scenario: a 10-byte payload
named "a.txt" under field "file", empty filesystem. -/
theorem c1_valid_upload_success_witness :
    uploadPath = "./uploads"
    ∧ (Backend.uploadHandler
        ⟨"POST", some [("file", ⟨"a.txt", [1, 2, 3, 4, 5, 6, 7, 8, 9, 10]⟩)]⟩
        ⟨false, false, none, "2024-01-01 00:00:00"⟩ ⟨false, []⟩).fst =
        { status := 200, body := "File successfully uploaded\n",
          headers := [] }
    ∧ (Backend.uploadHandler
        ⟨"POST", some [("file", ⟨"a.txt", [1, 2, 3, 4, 5, 6, 7, 8, 9, 10]⟩)]⟩
        ⟨false, false, none, "2024-01-01 00:00:00"⟩ ⟨false, []⟩).snd.files
        = [(uploadPath, "2024-01-01 00:00:00", [1, 2, 3, 4, 5, 6, 7, 8, 9, 10])] :=
  c1_valid_upload_success ⟨"a.txt", [1, 2, 3, 4, 5, 6, 7, 8, 9, 10]⟩
    ⟨false, false, none, "2024-01-01 00:00:00"⟩ ⟨false, []⟩ rfl rfl rfl rfl

/-- C2 counterexample: in the CORS variant the multipart parse runs
before the method check, so a GET whose body does not parse as multipart
is answered 400 ("Could not parse form"), not 405 as the claim states. -/
theorem c2_get_counterexample :
    (Cors.uploadHandler ⟨"GET", none⟩ ⟨false, false, none, "t"⟩
        ⟨true, []⟩).fst.status = 400
    ∧ (Cors.uploadHandler ⟨"GET", none⟩ ⟨false, false, none, "t"⟩
        ⟨true, []⟩).fst.status ≠ 405 := by
  constructor <;> decide

/-- C2 (amended): a request whose method is neither POST nor OPTIONS is
answered 405 by the plain handler; the CORS handler answers it 405 when
the body parses as multipart and 400 when it does not; in every case no
file is created and the filesystem is unchanged. -/
theorem c2_non_post_rejected (req : Request) (env : Env) (fs : FS)
    (hpost : req.method ≠ "POST") (hopt : req.method ≠ "OPTIONS") :
    ((Backend.uploadHandler req env fs).fst.status = 405
      ∧ (Backend.uploadHandler req env fs).snd = fs)
    ∧ ((Cors.uploadHandler req env fs).fst.status =
          (match req.form with | none => 400 | some _ => 405)
      ∧ (Cors.uploadHandler req env fs).snd = fs) := by
  refine ⟨⟨?_, ?_⟩, ?_, ?_⟩ <;>
    cases hform : req.form <;>
      simp [Backend.uploadHandler, Cors.uploadHandler, Cors.parseMultipartForm,
        httpError, hpost, hopt, hform]

/-- Witness for C2 (amended): a GET with an empty (but parseable)
multipart body. -/
theorem c2_non_post_rejected_witness :
    ((Backend.uploadHandler ⟨"GET", some []⟩ ⟨false, false, none, "t"⟩
        ⟨true, []⟩).fst.status = 405
      ∧ (Backend.uploadHandler ⟨"GET", some []⟩ ⟨false, false, none, "t"⟩
        ⟨true, []⟩).snd = ⟨true, []⟩)
    ∧ ((Cors.uploadHandler ⟨"GET", some []⟩ ⟨false, false, none, "t"⟩
        ⟨true, []⟩).fst.status =
          (match (some [] : Option (List (String × FilePart))) with
            | none => 400 | some _ => 405)
      ∧ (Cors.uploadHandler ⟨"GET", some []⟩ ⟨false, false, none, "t"⟩
        ⟨true, []⟩).snd = ⟨true, []⟩) :=
  c2_non_post_rejected ⟨"GET", some []⟩ ⟨false, false, none, "t"⟩ ⟨true, []⟩
    (by decide) (by decide)

/-- C3: a POST whose parsed multipart body lacks the named file field
("file" in the plain variant, "image" in the CORS variant) is answered
400 and the filesystem is unchanged. -/
theorem c3_missing_field (parts : List (String × FilePart)) (env : Env)
    (fs : FS)
    (hA : findFilePart parts "file" = none)
    (hB : findFilePart parts "image" = none) :
    ((Backend.uploadHandler ⟨"POST", some parts⟩ env fs).fst.status = 400
      ∧ (Backend.uploadHandler ⟨"POST", some parts⟩ env fs).snd = fs)
    ∧ ((Cors.uploadHandler ⟨"POST", some parts⟩ env fs).fst.status = 400
      ∧ (Cors.uploadHandler ⟨"POST", some parts⟩ env fs).snd = fs) := by
  refine ⟨⟨?_, ?_⟩, ?_, ?_⟩ <;>
    simp [Backend.uploadHandler, Cors.uploadHandler, Cors.parseMultipartForm,
      formFile, httpError, hA, hB]

/-- Witness for C3: the spec's scenario of a POST with an empty multipart
body and no file part. -/
theorem c3_missing_field_witness :
    ((Backend.uploadHandler ⟨"POST", some []⟩ ⟨false, false, none, "t"⟩
        ⟨true, []⟩).fst.status = 400
      ∧ (Backend.uploadHandler ⟨"POST", some []⟩ ⟨false, false, none, "t"⟩
        ⟨true, []⟩).snd = ⟨true, []⟩)
    ∧ ((Cors.uploadHandler ⟨"POST", some []⟩ ⟨false, false, none, "t"⟩
        ⟨true, []⟩).fst.status = 400
      ∧ (Cors.uploadHandler ⟨"POST", some []⟩ ⟨false, false, none, "t"⟩
        ⟨true, []⟩).snd = ⟨true, []⟩) :=
  c3_missing_field [] ⟨false, false, none, "t"⟩ ⟨true, []⟩ rfl rfl

/-- C4 counterexample: the parse is not the handler's first step in the
CORS variant — an OPTIONS request whose body fails to parse as multipart
is answered 200, not 400. -/
theorem c4_options_counterexample :
    (Cors.uploadHandler ⟨"OPTIONS", none⟩ ⟨false, false, none, "t"⟩
        ⟨true, []⟩).fst.status = 200
    ∧ (Cors.uploadHandler ⟨"OPTIONS", none⟩ ⟨false, false, none, "t"⟩
        ⟨true, []⟩).fst.status ≠ 400 := by
  constructor <;> decide

/-- C4 (amended): in the CORS variant, for every non-OPTIONS request the
first acting step parses the body as multipart form data with the fixed
32 MiB in-memory cap, and on parse failure the handler responds 400 with
message "Could not parse form" and performs no further step (the
filesystem is unchanged). -/
theorem c4_parse_failure (req : Request) (env : Env) (fs : FS)
    (hopt : req.method ≠ "OPTIONS") (hparse : req.form = none) :
    Cors.multipartMaxMemory = 33554432
    ∧ (Cors.uploadHandler req env fs).fst.status = 400
    ∧ (Cors.uploadHandler req env fs).fst.body = "Could not parse form\n"
    ∧ (Cors.uploadHandler req env fs).snd = fs := by
  refine ⟨by decide, ?_, ?_, ?_⟩ <;>
    simp [Cors.uploadHandler, Cors.parseMultipartForm, httpError, hopt, hparse]

/-- Witness for C4 (amended): a POST whose body is not multipart. -/
theorem c4_parse_failure_witness :
    Cors.multipartMaxMemory = 33554432
    ∧ (Cors.uploadHandler ⟨"POST", none⟩ ⟨false, false, none, "t"⟩
        ⟨true, []⟩).fst.status = 400
    ∧ (Cors.uploadHandler ⟨"POST", none⟩ ⟨false, false, none, "t"⟩
        ⟨true, []⟩).fst.body = "Could not parse form\n"
    ∧ (Cors.uploadHandler ⟨"POST", none⟩ ⟨false, false, none, "t"⟩
        ⟨true, []⟩).snd = ⟨true, []⟩ :=
  c4_parse_failure ⟨"POST", none⟩ ⟨false, false, none, "t"⟩ ⟨true, []⟩
    (by decide) rfl

/-- C5: every file stored by either handler that was not already on disk
sits in the fixed directory ./uploads and is named exactly by the
stringified creation timestamp, independently of the uploaded filename
(no extension is preserved). -/
theorem c5_stored_artifact_naming (req : Request) (env : Env) (fs : FS)
    (e1 e2 : String × String × List Nat)
    (h1 : e1 ∈ (Backend.uploadHandler req env fs).snd.files)
    (h2 : e2 ∈ (Cors.uploadHandler req env fs).snd.files) :
    uploadPath = "./uploads"
    ∧ (e1 ∈ fs.files ∨ (e1.fst = uploadPath ∧ e1.snd.fst = env.now))
    ∧ (e2 ∈ fs.files ∨ (e2.fst = uploadPath ∧ e2.snd.fst = env.now)) := by
  refine ⟨rfl, ?_, ?_⟩
  · unfold Backend.uploadHandler at h1
    split at h1
    · split at h1
      · exact Or.inl h1
      · split at h1
        · exact Or.inl h1
        · split at h1
          · exact Or.inl h1
          · split at h1 <;> exact FS.mem_write _ _ _ _ _ h1
    · exact Or.inl h1
  · unfold Cors.uploadHandler at h2
    split at h2
    · exact Or.inl h2
    · split at h2
      · exact Or.inl h2
      · split at h2
        · split at h2
          · exact Or.inl h2
          · split at h2
            · exact Or.inl h2
            · split at h2
              · exact Or.inl h2
              · split at h2 <;> exact FS.mem_write _ _ _ _ _ h2
        · exact Or.inl h2

/-- Witness for C5: a POST carrying both field names, handled by both
variants on an empty filesystem; each stored entry is at
("./uploads", timestamp). -/
theorem c5_stored_artifact_naming_witness :
    uploadPath = "./uploads"
    ∧ ((uploadPath, "ts", [1]) ∈
          (⟨true, []⟩ : FS).files
        ∨ ((uploadPath, "ts", ([1] : List Nat)).fst = uploadPath
            ∧ (uploadPath, "ts", ([1] : List Nat)).snd.fst = "ts"))
    ∧ ((uploadPath, "ts", [2]) ∈
          (⟨true, []⟩ : FS).files
        ∨ ((uploadPath, "ts", ([2] : List Nat)).fst = uploadPath
            ∧ (uploadPath, "ts", ([2] : List Nat)).snd.fst = "ts")) :=
  c5_stored_artifact_naming
    ⟨"POST", some [("file", ⟨"a.txt", [1]⟩), ("image", ⟨"b.png", [2]⟩)]⟩
    ⟨false, false, none, "ts"⟩ ⟨true, []⟩
    (uploadPath, "ts", [1]) (uploadPath, "ts", [2])
    (by decide) (by decide)

/-- C6: when the stream-copy fails after k bytes, both handlers respond
500 with message "Unable to save file", and the already-created,
truncated destination file remains on disk with the first k payload
bytes. -/
theorem c6_copy_failure_no_cleanup (pf pi : FilePart) (k : Nat) (env : Env)
    (fs : FS) (hmk : env.mkdirFails = false) (hcr : env.createFails = false)
    (hcp : env.copyFail = some k) :
    ((Backend.uploadHandler ⟨"POST", some [("file", pf)]⟩ env fs).fst.status
        = 500
      ∧ (Backend.uploadHandler ⟨"POST", some [("file", pf)]⟩ env fs).fst.body
        = "Unable to save file\n\n"
      ∧ (Backend.uploadHandler
          ⟨"POST", some [("file", pf)]⟩ env fs).snd.lookup uploadPath env.now
        = some (pf.content.take k))
    ∧ ((Cors.uploadHandler ⟨"POST", some [("image", pi)]⟩ env fs).fst.status
        = 500
      ∧ (Cors.uploadHandler ⟨"POST", some [("image", pi)]⟩ env fs).fst.body
        = "Unable to save file\n\n"
      ∧ (Cors.uploadHandler
          ⟨"POST", some [("image", pi)]⟩ env fs).snd.lookup uploadPath env.now
        = some (pi.content.take k)) := by
  refine ⟨⟨?_, ?_, ?_⟩, ?_, ?_, ?_⟩ <;>
    simp [Backend.uploadHandler, Cors.uploadHandler, Cors.parseMultipartForm,
      formFile, findFilePart, httpError, hmk, hcr, hcp, FS.lookup_write]

/-- Witness for C6: a 3-byte upload whose copy fails after 1 byte. -/
theorem c6_copy_failure_no_cleanup_witness :
    ((Backend.uploadHandler
        ⟨"POST", some [("file", ⟨"a.txt", [7, 8, 9]⟩)]⟩
        ⟨false, false, some 1, "ts"⟩ ⟨true, []⟩).fst.status = 500
      ∧ (Backend.uploadHandler
        ⟨"POST", some [("file", ⟨"a.txt", [7, 8, 9]⟩)]⟩
        ⟨false, false, some 1, "ts"⟩ ⟨true, []⟩).fst.body
        = "Unable to save file\n\n"
      ∧ (Backend.uploadHandler
        ⟨"POST", some [("file", ⟨"a.txt", [7, 8, 9]⟩)]⟩
        ⟨false, false, some 1, "ts"⟩ ⟨true, []⟩).snd.lookup uploadPath "ts"
        = some (([7, 8, 9] : List Nat).take 1))
    ∧ ((Cors.uploadHandler
        ⟨"POST", some [("image", ⟨"b.png", [4, 5, 6]⟩)]⟩
        ⟨false, false, some 1, "ts"⟩ ⟨true, []⟩).fst.status = 500
      ∧ (Cors.uploadHandler
        ⟨"POST", some [("image", ⟨"b.png", [4, 5, 6]⟩)]⟩
        ⟨false, false, some 1, "ts"⟩ ⟨true, []⟩).fst.body
        = "Unable to save file\n\n"
      ∧ (Cors.uploadHandler
        ⟨"POST", some [("image", ⟨"b.png", [4, 5, 6]⟩)]⟩
        ⟨false, false, some 1, "ts"⟩ ⟨true, []⟩).snd.lookup uploadPath "ts"
        = some (([4, 5, 6] : List Nat).take 1)) :=
  c6_copy_failure_no_cleanup ⟨"a.txt", [7, 8, 9]⟩ ⟨"b.png", [4, 5, 6]⟩ 1
    ⟨false, false, some 1, "ts"⟩ ⟨true, []⟩ rfl rfl rfl

/-- C7: in the CORS variant every OPTIONS request is answered 200 with an
empty body and exactly the three CORS headers, and the filesystem is
untouched. -/
theorem c7_options_preflight (form : Option (List (String × FilePart)))
    (env : Env) (fs : FS) :
    Cors.corsHeaders =
      [("Access-Control-Allow-Origin", "*"),
       ("Access-Control-Allow-Methods", "POST"),
       ("Access-Control-Allow-Headers", "Content-Type")]
    ∧ Cors.uploadHandler ⟨"OPTIONS", form⟩ env fs =
        ({ status := 200, body := "", headers := Cors.corsHeaders }, fs) := by
  exact ⟨rfl, by simp [Cors.uploadHandler]⟩

/-- C8 counterexample: when the bind fails, `main` prints the error and
returns, so the process exits; it does not keep running silently
non-serving as the claim states. -/
theorem c8_bind_failure_counterexample :
    (Backend.main
        (some "listen tcp :8080: bind: address already in use")).keepsRunning
      = false
    ∧ "Server failed: listen tcp :8080: bind: address already in use" ∈
        (Backend.main
          (some "listen tcp :8080: bind: address already in use")).stdout := by
  constructor <;> decide

/-- C8 (amended): if the listener fails to bind, both variants print the
error to standard output and the process then exits normally (`main`
returns); it does not remain alive in a non-serving state. -/
theorem c8_bind_failure_exits (e : String) :
    Backend.main (some e) =
      .exitsNormally
        ["Server started at http://localhost:8080", "Server failed: " ++ e]
    ∧ Cors.main (some e) =
      .exitsNormally
        ["Server started at http://localhost:8085", "Server failed: " ++ e] :=
  ⟨rfl, rfl⟩

/-- C9: in the CORS variant the three CORS headers are present on the
response of every request — success, OPTIONS, and each 400/405/500 error
path alike — because they are set before any branching. -/
theorem c9_cors_headers_always (req : Request) (env : Env) (fs : FS) :
    ("Access-Control-Allow-Origin", "*") ∈
        (Cors.uploadHandler req env fs).fst.headers
    ∧ ("Access-Control-Allow-Methods", "POST") ∈
        (Cors.uploadHandler req env fs).fst.headers
    ∧ ("Access-Control-Allow-Headers", "Content-Type") ∈
        (Cors.uploadHandler req env fs).fst.headers := by
  have h : (Cors.uploadHandler req env fs).fst.headers = Cors.corsHeaders
      ∨ (Cors.uploadHandler req env fs).fst.headers =
          Cors.corsHeaders ++ httpErrorHeaders := by
    unfold Cors.uploadHandler
    split
    · exact Or.inl rfl
    · split
      · exact Or.inr rfl
      · split
        · split
          · exact Or.inr rfl
          · split
            · exact Or.inr rfl
            · split
              · exact Or.inr rfl
              · split
                · exact Or.inr rfl
                · exact Or.inl rfl
        · exact Or.inr rfl
  rcases h with h | h <;> rw [h] <;> refine ⟨?_, ?_, ?_⟩ <;>
    simp [Cors.corsHeaders]

/-- C10: the location a file is stored at is independent of the request's
content — for any two single-part uploads differing only in filename or
payload bytes, handled from the same filesystem state and clock, the set
of (directory, name) keys on disk afterwards is identical, in both
variants. -/
theorem c10_path_content_independent (env : Env) (fs : FS)
    (f1 f2 : String) (c1 c2 : List Nat) :
    ((Backend.uploadHandler
          ⟨"POST", some [("file", ⟨f1, c1⟩)]⟩ env fs).snd.files.map pathOf
      = (Backend.uploadHandler
          ⟨"POST", some [("file", ⟨f2, c2⟩)]⟩ env fs).snd.files.map pathOf)
    ∧ ((Cors.uploadHandler
          ⟨"POST", some [("image", ⟨f1, c1⟩)]⟩ env fs).snd.files.map pathOf
      = (Cors.uploadHandler
          ⟨"POST", some [("image", ⟨f2, c2⟩)]⟩ env fs).snd.files.map pathOf) := by
  constructor <;>
    simp only [Backend.uploadHandler, Cors.uploadHandler,
      Cors.parseMultipartForm, formFile, findFilePart, List.find?,
      beq_self_eq_true] <;>
    by_cases hmk : (!fs.dirExists && env.mkdirFails) = true <;>
      by_cases hcr : env.createFails = true <;>
        cases hcp : env.copyFail <;>
          simp [hmk, hcr, hcp] <;>
            exact FS.map_pathOf_write _ _ _ _ _
